import Mathlib

/-!
Verification of the otel-demo observability pipeline against its
natural-language specification.

The definitions below are shallow embeddings of the JavaScript source:

* public/dashboard.js — client-side rolling chart series
  (updateCharts, updateChartsWithWebSocketData);
* lib/prometheus.js / metrics.js — metrics middleware and the safe
  mutation helpers (metricsMiddleware, incrementCounter, setGauge,
  createCustomMetric);
* the telemetry lifecycle module (initializeTelemetry, getTracer,
  shutdownTelemetry);
* server.js — the Socket.IO snapshot broadcaster.

State is passed explicitly; JavaScript exceptions are modelled with
Except; external library behaviour (prom-client, the OpenTelemetry SDK)
enters only as explicit parameters or as definitions whose doc comment
says they are modelled from the spec.
-/

/- ## Client aggregator (public/dashboard.js) -/

/-- One Chart.js series as used by dashboard.js: parallel arrays of
labels and numeric data points (chart.data.labels and
chart.data.datasets[0].data). -/
structure ChartSeries where
  labels : List String
  data : List Int
  deriving Repr, DecidableEq

/-- Translation of the response-time chart update in updateCharts
(dashboard.js lines 526-537) and the identical logic in
updateChartsWithWebSocketData (lines 82-94): push the new label and
value, then if labels.length > 20 shift both arrays. -/
def pushResponseTime (s : ChartSeries) (lbl : String) (v : Int) : ChartSeries :=
  let s1 : ChartSeries := ChartSeries.mk (s.labels ++ [lbl]) (s.data ++ [v])
  if s1.labels.length > 20 then ChartSeries.mk s1.labels.tail s1.data.tail else s1

/-- Folding a whole sequence of pushes into the response-time series. -/
def pushAll (s : ChartSeries) (ps : List (String × Int)) : ChartSeries :=
  ps.foldl (fun acc p => pushResponseTime acc p.fst p.snd) s

/-- Increment of the final array element, as in
data[data.length - 1]++ (a no-op on the empty array, where the
JavaScript write to index -1 does not change the array contents). -/
def incLast : List Int → List Int
  | [] => []
  | [x] => [x + 1]
  | x :: y :: rest => x :: incLast (y :: rest)

/-- Overwrite of the final array element, as in
data[data.length - 1] = v (a no-op on the empty array). -/
def setLast (v : Int) : List Int → List Int
  | [] => []
  | [_] => [v]
  | x :: y :: rest => x :: setLast v (y :: rest)

/-- Translation of the request-volume chart update in updateCharts
(dashboard.js lines 539-559): if the minute label equals the LAST
label, increment the last data slot; otherwise append the label with
an initial count of 1; finally, if labels.length > 10, shift both
arrays. -/
def updateVolume (s : ChartSeries) (minuteLabel : String) : ChartSeries :=
  let s1 : ChartSeries :=
    if s.labels.getLast? = some minuteLabel then
      ChartSeries.mk s.labels (incLast s.data)
    else
      ChartSeries.mk (s.labels ++ [minuteLabel]) (s.data ++ [1])
  if s1.labels.length > 10 then ChartSeries.mk s1.labels.tail s1.data.tail else s1

/-- Translation of the request-volume chart update in
updateChartsWithWebSocketData (dashboard.js lines 96-118): same shape
as updateVolume, but the matching slot is overwritten with the pushed
requestsPerMin value instead of incremented. -/
def updateVolumeWS (s : ChartSeries) (minuteLabel : String) (requestsPerMin : Int) :
    ChartSeries :=
  let s1 : ChartSeries :=
    if s.labels.getLast? = some minuteLabel then
      ChartSeries.mk s.labels (setLast requestsPerMin s.data)
    else
      ChartSeries.mk (s.labels ++ [minuteLabel]) (s.data ++ [requestsPerMin])
  if s1.labels.length > 10 then ChartSeries.mk s1.labels.tail s1.data.tail else s1

/-- Folding a whole sequence of minute-label pushes into the volume series. -/
def pushMinutes (s : ChartSeries) (ks : List String) : ChartSeries :=
  ks.foldl updateVolume s

/- ## Instrumentation middleware (lib/prometheus.js metricsMiddleware,
metrics.js metricsMiddleware) -/

/-- The three registry aggregates touched by the middleware: the
http_active_connections gauge, the http_requests_total counter (number
of increments) and the http_request_duration_seconds histogram (number
of observations). -/
structure MetricsState where
  activeConnections : Int
  httpRequestsTotal : Nat
  durationObservations : Nat
  deriving Repr, DecidableEq

/-- Entry half of metricsMiddleware: record the start time and
increment the active-connections gauge (activeConnections.inc()). -/
def middlewareEntry (s : MetricsState) : MetricsState :=
  { s with activeConnections := s.activeConnections + 1 }

/-- Body of the res.end override installed by metricsMiddleware:
compute the elapsed duration, increment httpRequestsTotal, observe the
duration histogram, decrement the active-connections gauge, then call
the original end. This body executes each time the patched res.end is
invoked. -/
def patchedEnd (s : MetricsState) : MetricsState :=
  { activeConnections := s.activeConnections - 1
    httpRequestsTotal := s.httpRequestsTotal + 1
    durationObservations := s.durationObservations + 1 }

/-- n invocations of the patched res.end. -/
def applyEnd : Nat → MetricsState → MetricsState
  | 0, s => s
  | n + 1, s => applyEnd n (patchedEnd s)

/-- One unit of work under metricsMiddleware: the entry half runs, and
then the patched res.end is invoked endCalls times. The middleware
attaches the completion bookkeeping only to res.end (no close/finish
listener, no finally), so the number of bookkeeping executions equals
the number of res.end invocations: 1 on a normal return or a thrown
error that the error-handling middleware answers with a response, and
0 on a client disconnect that abandons the response before end is
called. -/
def runRequest (endCalls : Nat) (s : MetricsState) : MetricsState :=
  applyEnd endCalls (middlewareEntry s)

/-- Exit paths named by the claim. -/
inductive ExitPath
  | normalReturn
  | thrownError
  | clientDisconnect
  deriving Repr, DecidableEq

/-- How many times the patched res.end is invoked on each exit path:
a normal return ends the response once; a thrown error reaches the
error-handling middleware, which sends (ends) a response once; a
client disconnect abandons the response, so res.end is never invoked
(the spec design notes call this out: a finish/end override is not
guaranteed to run on an abort). -/
def endInvocations : ExitPath → Nat
  | ExitPath.normalReturn => 1
  | ExitPath.thrownError => 1
  | ExitPath.clientDisconnect => 0

/- ## Telemetry lifecycle (unnamed/part_000: initializeTelemetry,
getTracer, shutdownTelemetry) -/

/-- The module-level state of the telemetry module: the sdk variable
(an SDK handle identified by the value of a construction counter when
it was built), the isInitialized flag, how many SDKs were ever
constructed, and the warnings printed so far. -/
structure TelemetryGlobal where
  sdk : Option Nat
  isInitialized : Bool
  constructions : Nat
  warnings : Nat
  deriving Repr, DecidableEq

/-- Translation of initializeTelemetry: if isInitialized, warn and
return the existing sdk handle without constructing anything;
otherwise construct a new SDK (with its exporters and span
processors), start it, and on success set isInitialized. If
sdk.start() throws, the sdk variable keeps the new SDK but
isInitialized stays false and the error propagates. startResult stands
for the outcome of sdk.start(). -/
def initializeTelemetry (startResult : Except String Unit) (g : TelemetryGlobal) :
    Except String (TelemetryGlobal × Option Nat) :=
  if g.isInitialized then
    Except.ok ({ g with warnings := g.warnings + 1 }, g.sdk)
  else
    let newSdk := g.constructions
    let g1 : TelemetryGlobal :=
      { g with sdk := some newSdk, constructions := g.constructions + 1 }
    match startResult with
    | Except.ok _ => Except.ok ({ g1 with isInitialized := true }, some newSdk)
    | Except.error e => Except.error e

/-- The tracer name defaulting in getTracer:
name or OTEL_SERVICE_NAME or the literal node-app. -/
def tracerName (name : Option String) : String := name.getD "node-app"

/-- Translation of getTracer: if not initialized, lazily call
initializeTelemetry with defaults (propagating a start failure), then
return trace.getTracer(tracerName, version), which always yields a
tracer handle. The returned string is the name of the tracer
obtained. -/
def getTracer (startResult : Except String Unit) (name : Option String)
    (g : TelemetryGlobal) : Except String (TelemetryGlobal × String) :=
  if g.isInitialized then
    Except.ok (g, tracerName name)
  else
    match initializeTelemetry startResult g with
    | Except.ok (g1, _) => Except.ok (g1, tracerName name)
    | Except.error e => Except.error e

/-- The part of the telemetry module state that shutdownTelemetry
reads: whether the sdk variable is non-null and the isInitialized
flag. -/
structure TelState where
  sdkPresent : Bool
  isInitialized : Bool
  deriving Repr, DecidableEq

/-- Translation of shutdownTelemetry (unnamed/part_000 lines 134-145):
if sdk is set and isInitialized, await sdk.shutdown(); on success
clear isInitialized; on failure log and re-throw the error, leaving
isInitialized set. Otherwise return immediately. shutdownResult stands
for the outcome of the awaited sdk.shutdown() call. -/
def shutdownTelemetry (shutdownResult : Except String Unit) (s : TelState) :
    Except String TelState :=
  if s.sdkPresent && s.isInitialized then
    match shutdownResult with
    | Except.ok _ => Except.ok { s with isInitialized := false }
    | Except.error e => Except.error e
  else
    Except.ok s

/- ## Safe mutation helpers (lib/prometheus.js incrementCounter,
setGauge) and the underlying prom-client mutations -/

/-- A labelled counter: the descriptor label names and the per-label-set
values. -/
structure CounterState where
  labelNames : List String
  values : List (List (String × String) × Int)
  deriving Repr, DecidableEq

/-- Add v to the series with the given label set, creating it if
unseen. -/
def updateSeries (vals : List (List (String × String) × Int))
    (labels : List (String × String)) (v : Int) :
    List (List (String × String) × Int) :=
  match vals with
  | [] => [(labels, v)]
  | (l, x) :: rest =>
    if l = labels then (l, x + v) :: rest else (l, x) :: updateSeries rest labels v

/-- Overwrite the series with the given label set, creating it if
unseen. -/
def overwriteSeries (vals : List (List (String × String) × Int))
    (labels : List (String × String)) (v : Int) :
    List (List (String × String) × Int) :=
  match vals with
  | [] => [(labels, v)]
  | (l, x) :: rest =>
    if l = labels then (l, v) :: rest else (l, x) :: overwriteSeries rest labels v

/-- Modelled from the spec: the underlying prom-client Counter.inc is
not part of this repository; per the spec failure taxonomy a mutation
whose label keys do not match the descriptor raises a
LabelMismatchError, and a counter must not decrease, so a negative
increment also raises. On success the labelled series is created
lazily and incremented. -/
def counterInc (c : CounterState) (labels : List (String × String)) (v : Int) :
    Except String CounterState :=
  if v < 0 then
    Except.error "increment value is negative"
  else if labels.all (fun p => c.labelNames.contains p.fst) then
    Except.ok { c with values := updateSeries c.values labels v }
  else
    Except.error "label mismatch"

/-- Translation of incrementCounter (lib/prometheus.js lines 158-164):
try counter.inc(labels, value); any thrown error is caught and logged
with console.error, and the call returns normally. The result is the
new counter state together with the log lines emitted. -/
def incrementCounter (c : CounterState) (labels : List (String × String)) (v : Int) :
    CounterState × List String :=
  match counterInc c labels v with
  | Except.ok c2 => (c2, [])
  | Except.error e => (c, ["Error incrementing counter: " ++ e])

/-- A labelled gauge: the descriptor label names and the per-label-set
values. -/
structure GaugeState where
  labelNames : List String
  values : List (List (String × String) × Int)
  deriving Repr, DecidableEq

/-- Modelled from the spec: the underlying prom-client Gauge.set is not
part of this repository; per the spec failure taxonomy a mutation
whose label keys do not match the descriptor raises a
LabelMismatchError. On success the labelled series is created lazily
and set absolutely. -/
def gaugeSet (g : GaugeState) (labels : List (String × String)) (v : Int) :
    Except String GaugeState :=
  if labels.all (fun p => g.labelNames.contains p.fst) then
    Except.ok { g with values := overwriteSeries g.values labels v }
  else
    Except.error "label mismatch"

/-- Translation of setGauge (lib/prometheus.js lines 172-178):
try gauge.set(labels, value); any thrown error is caught and logged
with console.error, and the call returns normally. -/
def setGauge (g : GaugeState) (labels : List (String × String)) (v : Int) :
    GaugeState × List String :=
  match gaugeSet g labels v with
  | Except.ok g2 => (g2, [])
  | Except.error e => (g, ["Error setting gauge: " ++ e])

/- ## createCustomMetric (lib/prometheus.js lines 186-196) -/

/-- The prom-client constructors that the repository source itself
exercises: the four metric classes (Counter, Gauge, Histogram,
Summary) and the Registry class (new client.Registry() at
lib/prometheus.js line 4). -/
inductive PromExport
  | counterClass
  | gaugeClass
  | histogramClass
  | summaryClass
  | registryClass
  deriving Repr, DecidableEq

/-- Lookup in the prom-client module object, client[name], restricted
to the constructors the source demonstrates to exist. -/
def clientExports : String → Option PromExport
  | "Counter" => some PromExport.counterClass
  | "Gauge" => some PromExport.gaugeClass
  | "Histogram" => some PromExport.histogramClass
  | "Summary" => some PromExport.summaryClass
  | "Registry" => some PromExport.registryClass
  | _ => none

/-- Whether an export is one of the four metric classes. -/
def isMetricClass : PromExport → Bool
  | PromExport.counterClass => true
  | PromExport.gaugeClass => true
  | PromExport.histogramClass => true
  | PromExport.summaryClass => true
  | PromExport.registryClass => false

/-- type.charAt(0).toUpperCase() + type.slice(1). -/
def capitalizeFirst (s : String) : String :=
  match s.data with
  | [] => ""
  | c :: cs => String.mk (c.toUpper :: cs)

/-- The object returned by createCustomMetric: which constructor ran,
the configuration it received, and the registries attached through the
registers option (the shared module registry). -/
structure CreatedObj where
  cls : PromExport
  config : List (String × String)
  registers : List String
  deriving Repr, DecidableEq

/-- Translation of createCustomMetric: look up
client[type.charAt(0).toUpperCase() + type.slice(1)]; if the lookup
fails, throw an Error naming the unknown type; otherwise construct the
class with the given config spread together with
registers: [register]. -/
def createCustomMetric (ty : String) (config : List (String × String)) :
    Except String CreatedObj :=
  match clientExports (capitalizeFirst ty) with
  | none => Except.error ("Unknown metric type: " ++ ty)
  | some cls => Except.ok (CreatedObj.mk cls config ["shared"])

/- ## Snapshot broadcaster (server.js startServer lines 79-95) -/

/-- The Socket.IO fan-out state: the connected subscriber sockets and
the ordered log of (socket, event name) emissions. -/
structure ServerState where
  subscribers : List Nat
  sent : List (Nat × String)
  deriving Repr, DecidableEq

/-- Translation of the io.on connection handler: register the socket
and immediately emit the metrics event and then the traces event to
it, before any interval tick. -/
def onConnection (s : ServerState) (sock : Nat) : ServerState :=
  { subscribers := s.subscribers ++ [sock]
    sent := s.sent ++ [(sock, "metrics"), (sock, "traces")] }

/-- Translation of the setInterval callback: io.emit sends the metrics
event to every connected subscriber and then the traces event to every
connected subscriber. -/
def broadcastTick (s : ServerState) : ServerState :=
  { s with
      sent := s.sent ++ s.subscribers.map (fun id => (id, "metrics"))
        ++ s.subscribers.map (fun id => (id, "traces")) }

/-- The delay passed to setInterval in startServer, as a function of
the whole environment-derived configuration: the source uses the
literal 5000 and reads no configuration value for it. -/
def broadcastIntervalMs (env : List (String × String)) : Nat := 5000

/- ## Registry render (lib/endpoints.js createMonitoringEndpoints /
register.metrics) -/

/-- One rendered sample line: the pre-rendered label text and the
sample value. -/
structure MetricSample where
  labelsText : String
  value : Int
  deriving Repr, DecidableEq

/-- One metric family as rendered: name, help, type and its samples in
registration order. -/
structure MetricFamily where
  name : String
  help : String
  mtype : String
  samples : List MetricSample
  deriving Repr, DecidableEq

/-- A registry: its families in registration order. -/
structure PromRegistry where
  families : List MetricFamily
  deriving Repr, DecidableEq

/-- Render one sample line. -/
def renderSample (name : String) (s : MetricSample) : String :=
  name ++ s.labelsText ++ " " ++ toString s.value

/-- Render one family: a HELP comment line, a TYPE comment line, then
one data line per sample. -/
def renderFamily (f : MetricFamily) : String :=
  "# HELP " ++ f.name ++ " " ++ f.help ++ "\n" ++
    "# TYPE " ++ f.name ++ " " ++ f.mtype ++ "\n" ++
    String.intercalate "\n" (f.samples.map (renderSample f.name))

/-- Modelled from the spec: the render operation register.metrics() is
implemented inside the prom-client dependency, not in this repository;
per spec section 4.1 it serializes the current registry state to the
line-oriented exposition text in registration order, deterministically
given identical internal state, and does not mutate the registry. The
pair returned is (exposition text, registry state after the call). -/
def registryMetrics (r : PromRegistry) : String × PromRegistry :=
  (String.intercalate "\n" (r.families.map renderFamily), r)

/- ### Helper lemmas about the series operations -/

theorem pushResponseTime_length_le (s : ChartSeries) (lbl : String) (v : Int)
    (h : s.labels.length ≤ 20) : (pushResponseTime s lbl v).labels.length ≤ 20 := by
  unfold pushResponseTime
  dsimp only
  split
  · simp only [List.length_tail, List.length_append, List.length_cons, List.length_nil]
    omega
  · rename_i hle
    simp only [List.length_append, List.length_cons, List.length_nil] at hle ⊢
    omega

theorem pushResponseTime_evict (s : ChartSeries) (lbl : String) (v : Int)
    (h : s.labels.length = 20) :
    pushResponseTime s lbl v =
      ChartSeries.mk (s.labels.tail ++ [lbl]) ((s.data ++ [v]).tail) := by
  unfold pushResponseTime
  dsimp only
  have hgt : (s.labels ++ [lbl]).length > 20 := by
    simp [List.length_append, h]
  rw [if_pos hgt]
  obtain ⟨labs, dat⟩ := s
  dsimp only at h ⊢
  cases labs with
  | nil => simp at h
  | cons a as => simp

theorem updateVolume_length_le (s : ChartSeries) (k : String)
    (h : s.labels.length ≤ 10) : (updateVolume s k).labels.length ≤ 10 := by
  unfold updateVolume
  dsimp only
  split
  · split
    · simp only [List.length_tail]
      omega
    · exact h
  · split
    · rename_i hgt
      simp only [List.length_tail, List.length_append, List.length_cons,
        List.length_nil] at hgt ⊢
      omega
    · rename_i hle
      simp only [List.length_append, List.length_cons, List.length_nil, Nat.not_lt] at hle ⊢
      omega

theorem updateVolume_same_last (s : ChartSeries) (k : String)
    (hlast : s.labels.getLast? = some k) (h : s.labels.length ≤ 10) :
    updateVolume s k = ChartSeries.mk s.labels (incLast s.data) := by
  unfold updateVolume
  rw [if_pos hlast]
  dsimp only
  rw [if_neg (by omega)]

theorem updateVolume_new_append (s : ChartSeries) (k : String)
    (hlast : s.labels.getLast? ≠ some k) (h : s.labels.length ≤ 9) :
    updateVolume s k = ChartSeries.mk (s.labels ++ [k]) (s.data ++ [1]) := by
  unfold updateVolume
  rw [if_neg hlast]
  dsimp only
  rw [if_neg (by simp only [List.length_append, List.length_cons, List.length_nil]; omega)]

theorem updateVolume_new_evict (s : ChartSeries) (k : String)
    (hlast : s.labels.getLast? ≠ some k) (h : s.labels.length = 10) :
    updateVolume s k =
      ChartSeries.mk ((s.labels ++ [k]).tail) ((s.data ++ [1]).tail) := by
  unfold updateVolume
  rw [if_neg hlast]
  dsimp only
  rw [if_pos (by simp only [List.length_append, List.length_cons, List.length_nil]; omega)]

theorem pushAll_length_le (ps : List (String × Int)) (s : ChartSeries)
    (h : s.labels.length ≤ 20) : (pushAll s ps).labels.length ≤ 20 := by
  induction ps generalizing s with
  | nil => simpa [pushAll] using h
  | cons p rest ih =>
    have hstep := pushResponseTime_length_le s p.fst p.snd h
    simpa [pushAll, List.foldl_cons] using ih _ hstep

theorem tail_append_singleton {α : Type} (xs : List α) (a : α) (h : xs ≠ []) :
    (xs ++ [a]).tail = xs.tail ++ [a] := by
  cases xs with
  | nil => exact absurd rfl h
  | cons x xs2 => simp

theorem pushMinutes_length_le (ks : List String) (s : ChartSeries)
    (h : s.labels.length ≤ 10) : (pushMinutes s ks).labels.length ≤ 10 := by
  induction ks generalizing s with
  | nil => simpa [pushMinutes] using h
  | cons k rest ih =>
    have hstep := updateVolume_length_le s k h
    simpa [pushMinutes, List.foldl_cons] using ih _ hstep

theorem updateVolumeWS_length_le (s : ChartSeries) (k : String) (v : Int)
    (h : s.labels.length ≤ 10) : (updateVolumeWS s k v).labels.length ≤ 10 := by
  unfold updateVolumeWS
  dsimp only
  split
  · split
    · simp only [List.length_tail]
      omega
    · exact h
  · split
    · rename_i hgt
      simp only [List.length_tail, List.length_append, List.length_cons,
        List.length_nil] at hgt ⊢
      omega
    · rename_i hle
      simp only [List.length_append, List.length_cons, List.length_nil, Nat.not_lt] at hle ⊢
      omega

theorem updateVolumeWS_same_last (s : ChartSeries) (k : String) (v : Int)
    (hlast : s.labels.getLast? = some k) (h : s.labels.length ≤ 10) :
    updateVolumeWS s k v = ChartSeries.mk s.labels (setLast v s.data) := by
  unfold updateVolumeWS
  rw [if_pos hlast]
  dsimp only
  rw [if_neg (by omega)]

theorem updateVolumeWS_getLast (s : ChartSeries) (k : String) (v : Int) :
    (updateVolumeWS s k v).labels.getLast? = some k := by
  unfold updateVolumeWS
  dsimp only
  split
  · rename_i hlast
    split
    · rename_i hgt
      obtain ⟨labs, dat⟩ := s
      dsimp only at hlast hgt ⊢
      cases labs with
      | nil => simp at hlast
      | cons a as =>
        cases as with
        | nil => simp at hgt
        | cons b bs =>
          simpa [List.getLast?_cons_cons] using hlast
    · exact hlast
  · split
    · rename_i hgt
      obtain ⟨labs, dat⟩ := s
      dsimp only at hgt ⊢
      cases labs with
      | nil => simp at hgt
      | cons a as => simp [List.getLast?_concat]
    · simp [List.getLast?_concat]

theorem applyEnd_spec (n : Nat) (s : MetricsState) :
    (applyEnd n s).activeConnections = s.activeConnections - n ∧
    (applyEnd n s).httpRequestsTotal = s.httpRequestsTotal + n ∧
    (applyEnd n s).durationObservations = s.durationObservations + n := by
  induction n generalizing s with
  | zero => simp [applyEnd]
  | succ m ih =>
    obtain ⟨h1, h2, h3⟩ := ih (patchedEnd s)
    refine ⟨?_, ?_, ?_⟩
    · show (applyEnd m (patchedEnd s)).activeConnections = s.activeConnections - (m + 1 : Nat)
      rw [h1]
      simp [patchedEnd]
      ring
    · show (applyEnd m (patchedEnd s)).httpRequestsTotal = s.httpRequestsTotal + (m + 1)
      rw [h2]
      simp [patchedEnd]
      omega
    · show (applyEnd m (patchedEnd s)).durationObservations = s.durationObservations + (m + 1)
      rw [h3]
      simp [patchedEnd]
      omega

theorem updateVolume_getLast (s : ChartSeries) (k : String) :
    (updateVolume s k).labels.getLast? = some k := by
  unfold updateVolume
  dsimp only
  split
  · rename_i hlast
    split
    · rename_i hgt
      obtain ⟨labs, dat⟩ := s
      dsimp only at hlast hgt ⊢
      cases labs with
      | nil => simp at hlast
      | cons a as =>
        cases as with
        | nil => simp at hgt
        | cons b bs =>
          simpa [List.getLast?_cons_cons] using hlast
    · exact hlast
  · split
    · rename_i hgt
      obtain ⟨labs, dat⟩ := s
      dsimp only at hgt ⊢
      cases labs with
      | nil => simp at hgt
      | cons a as => simp [List.getLast?_concat]
    · simp [List.getLast?_concat]

/- ## Claim theorems -/

/-- C1 counterexample: the completion bookkeeping is attached only to
the res.end override, so on the client-disconnect exit path (res.end
never invoked) it runs zero times, not once: starting from a fresh
registry, the request counter stays 0 and the active-connections gauge
is left at 1. -/
theorem middleware_bookkeeping_disconnect_cex :
    runRequest (endInvocations ExitPath.clientDisconnect) (MetricsState.mk 0 0 0) =
      MetricsState.mk 1 0 0 ∧
    (runRequest (endInvocations ExitPath.clientDisconnect)
      (MetricsState.mk 0 0 0)).httpRequestsTotal ≠ 1 := by
  exact ⟨rfl, by decide⟩

/-- C1 (amended): the completion bookkeeping (duration, gauge
decrement, counter increment, histogram observation) runs exactly once
per invocation of the overridden res.end: after a unit of work in
which the patched end is invoked n times, the request counter and the
histogram observation count grow by exactly n and the gauge changes by
1 - n. On exit paths that end the response exactly once (normal
return, thrown error answered by the error middleware) it therefore
runs exactly once; on a client disconnect where res.end is never
invoked it runs zero times and the gauge stays incremented. -/
theorem middleware_bookkeeping_per_end_call (n : Nat) (s : MetricsState) :
    (runRequest n s).activeConnections = s.activeConnections + 1 - n ∧
    (runRequest n s).httpRequestsTotal = s.httpRequestsTotal + n ∧
    (runRequest n s).durationObservations = s.durationObservations + n := by
  obtain ⟨h1, h2, h3⟩ := applyEnd_spec n (middlewareEntry s)
  refine ⟨?_, ?_, ?_⟩
  · rw [runRequest, h1]
    simp [middlewareEntry]
  · rw [runRequest, h2]
    simp [middlewareEntry]
  · rw [runRequest, h3]
    simp [middlewareEntry]

/-- C2 counterexample: the request-volume update compares the pushed
minute key only against the LAST bucket. With buckets for 10:00 and
10:01 already present, an out-of-order push keyed 10:00 matches an
existing bucket yet a new bucket is appended instead of the existing
one being updated: the series grows and afterwards holds two buckets
with the same 10:00 key. -/
theorem volume_out_of_order_push_cex :
    "10:00" ∈ (ChartSeries.mk ["10:00", "10:01"] [3, 4]).labels ∧
    updateVolume (ChartSeries.mk ["10:00", "10:01"] [3, 4]) "10:00" =
      ChartSeries.mk ["10:00", "10:01", "10:00"] [3, 4, 1] ∧
    (updateVolume (ChartSeries.mk ["10:00", "10:01"] [3, 4]) "10:00").labels.count
      "10:00" = 2 := by decide

/-- C2 (amended): the per-minute counter series reconciles a push only
against the most recent bucket, not by key across the whole series: a
push whose minute key equals the LAST bucket key updates that bucket
in place (no append), while any other push — including an out-of-order
or duplicate push whose key matches an earlier bucket — appends a new
bucket, so duplicate bucket keys can appear. -/
theorem volume_reconciled_by_last_bucket_only (s : ChartSeries) (k : String) :
    (s.labels.getLast? = some k → s.labels.length ≤ 10 →
      updateVolume s k = ChartSeries.mk s.labels (incLast s.data)) ∧
    (s.labels.getLast? ≠ some k → s.labels.length ≤ 9 →
      updateVolume s k = ChartSeries.mk (s.labels ++ [k]) (s.data ++ [1])) :=
  ⟨updateVolume_same_last s k, updateVolume_new_append s k⟩

/-- C2 witness: a push matching the last bucket key updates in place; a
push with a fresh key appends. -/
theorem volume_reconciled_by_last_bucket_only_witness :
    updateVolume (ChartSeries.mk ["10:00"] [5]) "10:00" =
      ChartSeries.mk ["10:00"] [6] ∧
    updateVolume (ChartSeries.mk ["10:00"] [5]) "10:01" =
      ChartSeries.mk ["10:00", "10:01"] [5, 1] :=
  ⟨(volume_reconciled_by_last_bucket_only (ChartSeries.mk ["10:00"] [5]) "10:00").1
      (by decide) (by decide),
    (volume_reconciled_by_last_bucket_only (ChartSeries.mk ["10:00"] [5]) "10:01").2
      (by decide) (by decide)⟩

/-- C3 counterexample: when the SDK shutdown fails (an exporter error),
shutdownTelemetry re-throws instead of still reaching the stopped
state: the call returns the exporter error and the initialized flag is
not cleared. -/
theorem shutdown_propagates_failure_cex :
    shutdownTelemetry (Except.error "export flush failed") (TelState.mk true true) =
      Except.error "export flush failed" ∧
    shutdownTelemetry (Except.error "export flush failed") (TelState.mk true true) ≠
      Except.ok (TelState.mk true false) := by
  refine ⟨rfl, ?_⟩
  intro h
  exact Except.noConfusion h

/-- C3 (amended): shutdownTelemetry clears the initialized flag and
returns normally only when the awaited sdk.shutdown() succeeds; if it
fails, the error is logged and re-thrown to the caller with the
initialized flag left set. A call when the flag is already cleared (in
particular a second call after a successful shutdown) or when no SDK
exists is a no-op that returns normally. -/
theorem shutdown_reaches_stopped_only_on_success (r : Except String Unit) (s : TelState) :
    (s.sdkPresent = true → s.isInitialized = true →
      (r = Except.ok () → shutdownTelemetry r s = Except.ok (TelState.mk true false)) ∧
      (∀ e, r = Except.error e → shutdownTelemetry r s = Except.error e)) ∧
    (s.isInitialized = false → shutdownTelemetry r s = Except.ok s) ∧
    (s.sdkPresent = false → shutdownTelemetry r s = Except.ok s) := by
  obtain ⟨p, i⟩ := s
  refine ⟨?_, ?_, ?_⟩
  · rintro rfl rfl
    exact ⟨fun hr => by simp [shutdownTelemetry, hr], fun e hr => by simp [shutdownTelemetry, hr]⟩
  · rintro rfl
    simp [shutdownTelemetry]
  · rintro rfl
    simp [shutdownTelemetry]

/-- C3 witness: a successful shutdown reaches the stopped state, a
repeated call is a no-op, and a failed shutdown propagates the
error. -/
theorem shutdown_reaches_stopped_only_on_success_witness :
    shutdownTelemetry (Except.ok ()) (TelState.mk true true) =
      Except.ok (TelState.mk true false) ∧
    shutdownTelemetry (Except.ok ()) (TelState.mk true false) =
      Except.ok (TelState.mk true false) ∧
    shutdownTelemetry (Except.error "timeout") (TelState.mk true true) =
      Except.error "timeout" :=
  ⟨((shutdown_reaches_stopped_only_on_success (Except.ok ()) (TelState.mk true true)).1
      rfl rfl).1 rfl,
    (shutdown_reaches_stopped_only_on_success (Except.ok ()) (TelState.mk true false)).2.1 rfl,
    ((shutdown_reaches_stopped_only_on_success (Except.error "timeout")
      (TelState.mk true true)).1 rfl rfl).2 "timeout" rfl⟩

/-- C4: initializeTelemetry is idempotent. Once the initialized flag is
set (which the first successful call does), a second call constructs
nothing (the construction counter and sdk variable are unchanged),
logs one warning, and returns the existing SDK handle; getTracer
returns a tracer after the first call and after the second call alike,
lazily initializing when the flag is still clear. -/
theorem telemetry_init_idempotent (r : Except String Unit) (g : TelemetryGlobal)
    (name : Option String) :
    (g.isInitialized = true →
      initializeTelemetry r g = Except.ok ({ g with warnings := g.warnings + 1 }, g.sdk) ∧
      getTracer r name g = Except.ok (g, tracerName name)) ∧
    (g.isInitialized = false →
      initializeTelemetry (Except.ok ()) g =
        Except.ok (TelemetryGlobal.mk (some g.constructions) true (g.constructions + 1)
          g.warnings, some g.constructions) ∧
      getTracer (Except.ok ()) name g =
        Except.ok (TelemetryGlobal.mk (some g.constructions) true (g.constructions + 1)
          g.warnings, tracerName name)) := by
  constructor
  · intro h
    constructor
    · simp [initializeTelemetry, h]
    · simp [getTracer, h]
  · intro h
    constructor
    · simp [initializeTelemetry, h]
    · simp [getTracer, h, initializeTelemetry]

/-- C4 witness: after a completed first call the state has the
initialized flag set; a second call adds a warning, constructs no new
SDK, and returns the existing handle; getTracer yields a tracer after
either call. -/
theorem telemetry_init_idempotent_witness :
    initializeTelemetry (Except.ok ()) (TelemetryGlobal.mk none false 0 0) =
      Except.ok (TelemetryGlobal.mk (some 0) true 1 0, some 0) ∧
    initializeTelemetry (Except.ok ()) (TelemetryGlobal.mk (some 0) true 1 0) =
      Except.ok (TelemetryGlobal.mk (some 0) true 1 1, some 0) ∧
    getTracer (Except.ok ()) none (TelemetryGlobal.mk (some 0) true 1 0) =
      Except.ok (TelemetryGlobal.mk (some 0) true 1 0, "node-app") :=
  ⟨((telemetry_init_idempotent (Except.ok ()) (TelemetryGlobal.mk none false 0 0) none).2
      rfl).1,
    ((telemetry_init_idempotent (Except.ok ()) (TelemetryGlobal.mk (some 0) true 1 0) none).1
      rfl).1,
    ((telemetry_init_idempotent (Except.ok ()) (TelemetryGlobal.mk (some 0) true 1 0) none).1
      rfl).2⟩

/-- C5: the render operation does not mutate the registry, and calling
it twice with no intervening mutation yields byte-identical exposition
text. -/
theorem render_idempotent (r : PromRegistry) :
    (registryMetrics r).snd = r ∧
    (registryMetrics (registryMetrics r).snd).fst = (registryMetrics r).fst :=
  ⟨rfl, rfl⟩

/-- C6: the rolling duration series never exceeds 20 entries under any
sequence of pushes, and once it holds exactly 20 entries a further
push appends the newest value and evicts exactly the oldest entry,
leaving the other 19 unchanged in order. -/
theorem duration_series_bounded_fifo (s : ChartSeries) (ps : List (String × Int))
    (lbl : String) (v : Int) :
    (s.labels.length ≤ 20 → (pushAll s ps).labels.length ≤ 20) ∧
    (s.labels.length = 20 →
      pushResponseTime s lbl v =
        ChartSeries.mk (s.labels.tail ++ [lbl]) ((s.data ++ [v]).tail)) ∧
    (s.labels.length = 20 → s.data.length = 20 →
      (pushResponseTime s lbl v).data = s.data.tail ++ [v]) := by
  refine ⟨fun h => pushAll_length_le ps s h, pushResponseTime_evict s lbl v, ?_⟩
  intro h hd
  rw [pushResponseTime_evict s lbl v h]
  exact tail_append_singleton s.data v (by intro hnil; rw [hnil] at hd; simp at hd)

/-- C6 witness: at capacity 20 a push keeps the length at 20 and shifts
out exactly the oldest entry. -/
theorem duration_series_bounded_fifo_witness :
    (pushAll (ChartSeries.mk (List.replicate 20 "t") (List.replicate 20 0))
      [("a", 7)]).labels.length ≤ 20 ∧
    pushResponseTime (ChartSeries.mk (List.replicate 20 "t") (List.replicate 20 0)) "a" 7 =
      ChartSeries.mk ((List.replicate 20 "t").tail ++ ["a"])
        ((List.replicate 20 (0 : Int) ++ [7]).tail) ∧
    (pushResponseTime (ChartSeries.mk (List.replicate 20 "t")
      (List.replicate 20 0)) "a" 7).data = (List.replicate 20 (0 : Int)).tail ++ [7] :=
  ⟨(duration_series_bounded_fifo (ChartSeries.mk (List.replicate 20 "t")
      (List.replicate 20 0)) [("a", 7)] "a" 7).1 (by decide),
    (duration_series_bounded_fifo (ChartSeries.mk (List.replicate 20 "t")
      (List.replicate 20 0)) [("a", 7)] "a" 7).2.1 (by decide),
    (duration_series_bounded_fifo (ChartSeries.mk (List.replicate 20 "t")
      (List.replicate 20 0)) [("a", 7)] "a" 7).2.2 (by decide) (by decide)⟩

/-- C7: for the per-minute counter series (bounded by the reachable
capacity of 10): a second push carrying the minute key that the series
just absorbed lands in the same single slot — incremented by the
updateCharts variant, overwritten by the WebSocket variant — without
growing the series; a push carrying a new minute key appends a new
slot; once 10 slots are held a new-key push evicts the oldest slot;
and the length never exceeds 10 under any sequence of pushes. -/
theorem minute_series_bucket_semantics (s : ChartSeries) (k : String) (v w : Int)
    (ks : List String) :
    (s.labels.length ≤ 10 →
      (updateVolume (updateVolume s k) k).labels = (updateVolume s k).labels ∧
      (updateVolume (updateVolume s k) k).data = incLast (updateVolume s k).data) ∧
    (s.labels.getLast? ≠ some k → s.labels.length ≤ 9 →
      updateVolume s k = ChartSeries.mk (s.labels ++ [k]) (s.data ++ [1])) ∧
    (s.labels.getLast? ≠ some k → s.labels.length = 10 →
      updateVolume s k =
        ChartSeries.mk ((s.labels ++ [k]).tail) ((s.data ++ [1]).tail)) ∧
    (s.labels.length ≤ 10 → (pushMinutes s ks).labels.length ≤ 10) ∧
    (s.labels.length ≤ 10 →
      (updateVolumeWS (updateVolumeWS s k v) k w).labels = (updateVolumeWS s k v).labels ∧
      (updateVolumeWS (updateVolumeWS s k v) k w).data =
        setLast w (updateVolumeWS s k v).data) := by
  refine ⟨?_, updateVolume_new_append s k, updateVolume_new_evict s k,
    fun h => pushMinutes_length_le ks s h, ?_⟩
  · intro h
    have hlast := updateVolume_getLast s k
    have hlen := updateVolume_length_le s k h
    rw [updateVolume_same_last (updateVolume s k) k hlast hlen]
    exact ⟨rfl, rfl⟩
  · intro h
    have hlast := updateVolumeWS_getLast s k v
    have hlen := updateVolumeWS_length_le s k v h
    rw [updateVolumeWS_same_last (updateVolumeWS s k v) k w hlast hlen]
    exact ⟨rfl, rfl⟩

/-- C7 witness: consecutive same-minute pushes keep one slot; a fresh
minute appends; at 10 slots a fresh minute evicts the oldest. -/
theorem minute_series_bucket_semantics_witness :
    ((updateVolume (updateVolume (ChartSeries.mk ["09:59"] [2]) "10:00") "10:00").labels =
      (updateVolume (ChartSeries.mk ["09:59"] [2]) "10:00").labels) ∧
    updateVolume (ChartSeries.mk ["09:59"] [2]) "10:00" =
      ChartSeries.mk ["09:59", "10:00"] [2, 1] ∧
    updateVolume (ChartSeries.mk (List.replicate 10 "m") (List.replicate 10 1)) "n" =
      ChartSeries.mk ((List.replicate 10 "m" ++ ["n"]).tail)
        ((List.replicate 10 (1 : Int) ++ [1]).tail) ∧
    (pushMinutes (ChartSeries.mk [] []) ["10:00", "10:00", "10:01"]).labels.length ≤ 10 :=
  ⟨((minute_series_bucket_semantics (ChartSeries.mk ["09:59"] [2]) "10:00" 0 0 []).1
      (by decide)).1,
    (minute_series_bucket_semantics (ChartSeries.mk ["09:59"] [2]) "10:00" 0 0 []).2.1
      (by decide) (by decide),
    (minute_series_bucket_semantics (ChartSeries.mk (List.replicate 10 "m")
      (List.replicate 10 1)) "n" 0 0 []).2.2.1 (by decide) (by decide),
    (minute_series_bucket_semantics (ChartSeries.mk [] []) "x" 0 0
      ["10:00", "10:00", "10:01"]).2.2.2.1 (by decide)⟩

/-- C8: the safe mutation helpers never propagate an exception to the
caller: whatever the underlying metric mutation does, incrementCounter
and setGauge return normally — passing the updated state through on
success, and on any error (label mismatch, invalid mutation) leaving
the metric unchanged and emitting one console.error log line. -/
theorem safe_mutation_never_throws (c : CounterState) (g : GaugeState)
    (labels : List (String × String)) (v w : Int) :
    (∀ c2, counterInc c labels v = Except.ok c2 →
      incrementCounter c labels v = (c2, [])) ∧
    (∀ e, counterInc c labels v = Except.error e →
      incrementCounter c labels v = (c, ["Error incrementing counter: " ++ e])) ∧
    (∀ g2, gaugeSet g labels w = Except.ok g2 → setGauge g labels w = (g2, [])) ∧
    (∀ e, gaugeSet g labels w = Except.error e →
      setGauge g labels w = (g, ["Error setting gauge: " ++ e])) := by
  refine ⟨?_, ?_, ?_, ?_⟩ <;> intro x h <;> simp [incrementCounter, setGauge, h]

/-- C8 witness: with a label set that does not match the descriptor,
the underlying mutation fails but the helper returns normally with the
metric unchanged and the error logged. -/
theorem safe_mutation_never_throws_witness :
    incrementCounter (CounterState.mk ["method"] []) [("bogus", "x")] 1 =
      (CounterState.mk ["method"] [], ["Error incrementing counter: label mismatch"]) ∧
    setGauge (GaugeState.mk ["user_type"] []) [("nope", "y")] 5 =
      (GaugeState.mk ["user_type"] [], ["Error setting gauge: label mismatch"]) :=
  ⟨(safe_mutation_never_throws (CounterState.mk ["method"] [])
      (GaugeState.mk ["user_type"] []) [("bogus", "x")] 1 5).2.1 "label mismatch" rfl,
    (safe_mutation_never_throws (CounterState.mk ["method"] [])
      (GaugeState.mk ["user_type"] []) [("nope", "y")] 1 5).2.2.2 "label mismatch" rfl⟩

/-- C9 counterexample: the broadcast interval is not configurable — the
setInterval delay in startServer is the hard-coded literal 5000, so no
environment configuration yields an interval different from 5
seconds. -/
theorem broadcast_interval_not_configurable_cex :
    ¬ ∃ env, broadcastIntervalMs env ≠ 5000 := by
  intro h
  obtain ⟨env, hne⟩ := h
  exact hne rfl

/-- C9 (amended): every connecting subscriber is registered and
immediately (at connect time, before any interval tick) receives one
metrics event and one traces event; each broadcast tick emits the
metrics event and the traces event to every connected subscriber; and
the broadcast interval is hard-coded to 5000 milliseconds regardless
of configuration. -/
theorem broadcaster_connect_and_tick (s : ServerState) (sock : Nat)
    (env : List (String × String)) :
    (sock ∈ (onConnection s sock).subscribers ∧
      (sock, "metrics") ∈ (onConnection s sock).sent ∧
      (sock, "traces") ∈ (onConnection s sock).sent ∧
      (onConnection s sock).sent = s.sent ++ [(sock, "metrics"), (sock, "traces")]) ∧
    (∀ id, id ∈ s.subscribers →
      (id, "metrics") ∈ (broadcastTick s).sent ∧
      (id, "traces") ∈ (broadcastTick s).sent) ∧
    broadcastIntervalMs env = 5000 := by
  refine ⟨⟨?_, ?_, ?_, rfl⟩, ?_, rfl⟩
  · simp [onConnection]
  · simp [onConnection]
  · simp [onConnection]
  · intro id hid
    constructor
    · simp only [broadcastTick, List.mem_append]
      exact Or.inl (Or.inr (List.mem_map_of_mem (fun i => (i, "metrics")) hid))
    · simp only [broadcastTick, List.mem_append]
      exact Or.inr (List.mem_map_of_mem (fun i => (i, "traces")) hid)

/-- C9 witness: a concrete connect delivers both events to the new
socket at once, and a tick reaches an existing subscriber with both
events. -/
theorem broadcaster_connect_and_tick_witness :
    (7, "metrics") ∈ (onConnection (ServerState.mk [1, 2] []) 7).sent ∧
    (7, "traces") ∈ (onConnection (ServerState.mk [1, 2] []) 7).sent ∧
    (1, "metrics") ∈ (broadcastTick (ServerState.mk [1, 2] [])).sent ∧
    (1, "traces") ∈ (broadcastTick (ServerState.mk [1, 2] [])).sent ∧
    broadcastIntervalMs [("BROADCAST_INTERVAL_MS", "100")] = 5000 :=
  ⟨(broadcaster_connect_and_tick (ServerState.mk [1, 2] []) 7 []).1.2.1,
    (broadcaster_connect_and_tick (ServerState.mk [1, 2] []) 7 []).1.2.2.1,
    ((broadcaster_connect_and_tick (ServerState.mk [1, 2] []) 7 []).2.1 1 (by decide)).1,
    ((broadcaster_connect_and_tick (ServerState.mk [1, 2] []) 7 []).2.1 1 (by decide)).2,
    (broadcaster_connect_and_tick (ServerState.mk [1, 2] [])
      7 [("BROADCAST_INTERVAL_MS", "100")]).2.2⟩

/-- C10 counterexample: the type string registry capitalizes to
Registry, which is a prom-client export (the source itself runs new
client.Registry()) but not a metric class; createCustomMetric does not
throw for it, contradicting the claim that every type not naming a
metric class throws. -/
theorem createCustomMetric_registry_cex :
    isMetricClass PromExport.registryClass = false ∧
    capitalizeFirst "registry" = "Registry" ∧
    createCustomMetric "registry" [] =
      Except.ok (CreatedObj.mk PromExport.registryClass [] ["shared"]) := by
  refine ⟨rfl, by decide, rfl⟩

/-- C10 (amended): createCustomMetric throws an Error whose message
names the unknown type exactly when the first-letter-capitalized type
does not name any constructor exported by prom-client; each of the
four recognized metric types returns a new metric of the matching
class carrying the shared registry in its registers option; but a type
naming a non-metric prom-client constructor, such as registry, is also
accepted without an error. -/
theorem createCustomMetric_unknown_type (ty : String) (config : List (String × String)) :
    (clientExports (capitalizeFirst ty) = none →
      createCustomMetric ty config = Except.error ("Unknown metric type: " ++ ty)) ∧
    (∀ cls, clientExports (capitalizeFirst ty) = some cls →
      createCustomMetric ty config = Except.ok (CreatedObj.mk cls config ["shared"])) ∧
    createCustomMetric "counter" config =
      Except.ok (CreatedObj.mk PromExport.counterClass config ["shared"]) ∧
    createCustomMetric "gauge" config =
      Except.ok (CreatedObj.mk PromExport.gaugeClass config ["shared"]) ∧
    createCustomMetric "histogram" config =
      Except.ok (CreatedObj.mk PromExport.histogramClass config ["shared"]) ∧
    createCustomMetric "summary" config =
      Except.ok (CreatedObj.mk PromExport.summaryClass config ["shared"]) := by
  refine ⟨?_, ?_, rfl, rfl, rfl, rfl⟩
  · intro h
    simp [createCustomMetric, h]
  · intro cls h
    simp [createCustomMetric, h]

/-- C10 witness: an unrecognized type throws with the type named in
the message; a recognized type constructs a registered metric. -/
theorem createCustomMetric_unknown_type_witness :
    createCustomMetric "timer" [] = Except.error "Unknown metric type: timer" ∧
    createCustomMetric "counter" [] =
      Except.ok (CreatedObj.mk PromExport.counterClass [] ["shared"]) :=
  ⟨(createCustomMetric_unknown_type "timer" []).1 (by decide),
    (createCustomMetric_unknown_type "counter" []).2.2.1⟩
